import Mathlib

/-!
Verification development for the prelim-exam room-assignment IP builder
(`ProjectPart2/Part2/assign_rooms.py`, class `PrelimExamAssignment`).

The Python class is shallowly embedded: pandas dataframes become explicit
record/list structures, the Gurobi model becomes a list of linear
constraints plus an objective term list, and the two places where the code
can raise a `KeyError` (`room_label_dict[...]` lookups in `set_objective`)
are modelled with `Option`.  Python floats are modelled as `ℚ`.

Aliasing matters for the constructor and is tracked explicitly: pandas
`rename`/`assign`/`append` return fresh frames, while `df[col] = v` and
`df.loc[...] = v` mutate the frame in place.  `PrelimExamAssignment.init`
therefore returns both the fields stored on `self` and the final states of
the four caller-supplied tables.
-/

namespace AssignRooms

/-- A row of the caller's `exams` dataframe (columns used by the class:
`exam_id`, `enrollment`, `modality`, `acadorg`; the unused `course`/`d`/`k`
columns are omitted). -/
structure Exam where
  exam_id : String
  enrollment : ℚ
  modality : String
  acadorg : String
deriving DecidableEq, Repr

/-- A row of `self.exams` after `rename(columns={"enrollment": "n"})`. -/
structure ExamN where
  exam_id : String
  n : ℚ
  modality : String
  acadorg : String
deriving DecidableEq, Repr

/-- A row of the caller's `rooms` dataframe. -/
structure RoomIn where
  room_id : String
  building : String
  room : String
  capacity : ℚ
deriving DecidableEq, Repr

/-- A row of `self.rooms` after the rename `capacity → s`, `assign(b = 1)`
and the dummy append; the dummy row has no `room` entry (NaN), hence
`Option`. -/
structure Room where
  room_id : String
  building : String
  room : Option String
  s : ℚ
  b : ℚ
deriving DecidableEq, Repr

/-- A pandas dataframe of rationals: row labels (`index`) and columns, each
column a name with one value per row. -/
structure DFrame where
  index : List String
  cols : List (String × List ℚ)
deriving DecidableEq, Repr

/-- `df[name] = v`: broadcast-assign a column in place (replacing it when
the name already exists, appending it otherwise). -/
def DFrame.setCol (df : DFrame) (name : String) (v : ℚ) : DFrame :=
  if df.cols.any (fun c => c.1 = name) then
    { index := df.index,
      cols := df.cols.map (fun c =>
        if c.1 = name then (c.1, df.index.map (fun _ => v)) else c) }
  else
    { index := df.index,
      cols := df.cols ++ [(name, df.index.map (fun _ => v))] }

/-- `df.append(pd.Series(0, index=df.columns), ignore_index=True)`: a fresh
frame with a zero appended to every column and the index reset to a range. -/
def DFrame.appendZeroRow (df : DFrame) : DFrame :=
  { index := (List.range (df.index.length + 1)).map (fun k => toString k),
    cols := df.cols.map (fun c => (c.1, c.2 ++ [(0 : ℚ)])) }

/-- `df.index = df.columns`: relabel the rows by the column names. -/
def DFrame.setIndexToCols (df : DFrame) : DFrame :=
  { index := df.cols.map Prod.fst, cols := df.cols }

/-- `df[col][row]` as an optional cell lookup (used only by the
spec-modelled objective terms). -/
def DFrame.atCell (df : DFrame) (row col : String) : Option ℚ :=
  match df.index.findIdx? (fun s => s = row), df.cols.find? (fun c => c.1 = col) with
  | some i, some c => c.2.get? i
  | _, _ => none

/-- The constructor's arguments. -/
structure Inputs where
  room_label_dict : List (String × List String)
  exams : List Exam
  exam_dates : List (String × ℕ)
  rooms : List RoomIn
  acadorg_dist : DFrame
  dist : DFrame
  wr : ℚ
  w_ac : ℚ
  R : ℚ
deriving DecidableEq, Repr

/-- The fields the constructor stores on `self`. -/
structure SelfState where
  room_label_dict : List (String × List String)
  exam_dates : List (String × ℕ)
  R : ℚ
  wr : ℚ
  w_ac : ℚ
  exams : List ExamN
  M : ℕ
  rooms : List Room
  N : ℕ
  acadorg_dist : DFrame
  dist : DFrame
deriving DecidableEq, Repr

/-- The constructor's outcome: the `self` fields together with the final
states of the four caller-supplied tables (to record which ones the
constructor mutated in place). -/
structure InitResult where
  self : SelfState
  caller_exams : List Exam
  caller_rooms : List RoomIn
  caller_acadorg_dist : DFrame
  caller_dist : DFrame
deriving DecidableEq, Repr

/-- One row of `exams.rename(columns={"enrollment": "n"})` after
`self.exams.loc[self.exams.modality == 'Online','n'] = 0`. -/
def examSetup (e : Exam) : ExamN :=
  { exam_id := e.exam_id,
    n := if e.modality = "Online" then 0 else e.enrollment,
    modality := e.modality,
    acadorg := e.acadorg }

/-- One row of `rooms.rename(columns={"capacity": "s"}).assign(b = 1)`. -/
def roomSetup (r : RoomIn) : Room :=
  { room_id := r.room_id, building := r.building, room := some r.room,
    s := r.capacity, b := 1 }

/-- The appended dummy room `{"room_id": "dummy", "building": "dummy",
"s": 0, "b": M}` (its `room` cell is NaN). -/
def dummyRoom (M : ℕ) : Room :=
  { room_id := "dummy", building := "dummy", room := none, s := 0, b := (M : ℚ) }

/-- `PrelimExamAssignment.__init__`, line by line:
`self.exams` is a fresh frame (`rename` copies) with the Online rows'
enrollment zeroed; `self.rooms` is a fresh frame with `b = 1` and the dummy
row appended; `self.acadorg_dist` aliases the caller's frame, and
`self.acadorg_dist['dummy'] = 0.0` mutates it in place; `self.dist` first
aliases the caller's frame and `self.dist['dummy'] = 0.0` mutates it in
place, but `self.dist.append(...)` then rebinds `self.dist` to a fresh
frame, to which alone the zero row and the `index = columns` relabelling
apply. -/
def PrelimExamAssignment.init (inp : Inputs) : InitResult :=
  let selfExams := inp.exams.map examSetup
  let M := selfExams.length
  let selfRooms := inp.rooms.map roomSetup ++ [dummyRoom M]
  let callerAcadorg := inp.acadorg_dist.setCol "dummy" 0
  let callerDist := inp.dist.setCol "dummy" 0
  let selfDist := callerDist.appendZeroRow.setIndexToCols
  { self :=
      { room_label_dict := inp.room_label_dict,
        exam_dates := inp.exam_dates,
        R := inp.R, wr := inp.wr, w_ac := inp.w_ac,
        exams := selfExams, M := M,
        rooms := selfRooms, N := selfRooms.length,
        acadorg_dist := callerAcadorg, dist := selfDist },
    caller_exams := inp.exams,
    caller_rooms := inp.rooms,
    caller_acadorg_dist := callerAcadorg,
    caller_dist := callerDist }

/-- The decision variables of `init_dv`: `x[i,r]`, `z[i]`, `p[r,r2]`,
keyed by exam/room identifiers exactly as the Gurobi tupledicts are. -/
inductive Var where
  | x : String → String → Var
  | z : String → Var
  | p : String → String → Var
deriving DecidableEq, Repr

/-- Whether a variable belongs to the `p` family. -/
def Var.isP : Var → Bool
  | .p _ _ => true
  | _ => false

/-- The sense of a Gurobi linear constraint. -/
inductive Sense where
  | le
  | ge
  | eq
deriving DecidableEq, Repr

/-- A linear constraint `Σ terms sense rhs`: every variable term is kept on
the left (an `addConstr(lhs, SENSE, rhs)` with a variable on the right is
stored with that variable moved left with coefficient `-1`), the constant
on the right. -/
structure LinConstr where
  terms : List (ℚ × Var)
  sense : Sense
  rhs : ℚ
deriving DecidableEq, Repr

/-- `self.index_x`: the `(exam_id, room_id)` keys of `x`, in insertion
order (exam-major, room-minor). -/
def index_x (s : SelfState) : List (String × String) :=
  s.exams.flatMap (fun e => s.rooms.map (fun r => (e.exam_id, r.room_id)))

/-- `add_z_constraint`: for each exam `i`,
`sum(x.select(i,'*')) == z[i]`, stored as `Σ_r x[i,r] - z[i] = 0`. -/
def PrelimExamAssignment.add_z_constraint (s : SelfState) : List LinConstr :=
  s.exams.map (fun e =>
    { terms := s.rooms.map (fun r => ((1 : ℚ), Var.x e.exam_id r.room_id)) ++
        [((-1 : ℚ), Var.z e.exam_id)],
      sense := Sense.eq, rhs := 0 })

/-- The single lower-bound linearized-AND constraint
`p[r,r2] >= x[i,r] + x[i,r2] - 1`, stored as
`p[r,r2] - x[i,r] - x[i,r2] ≥ -1`. -/
def pLowerBound (i r r2 : String) : LinConstr :=
  { terms := [((1 : ℚ), Var.p r r2), ((-1 : ℚ), Var.x i r), ((-1 : ℚ), Var.x i r2)],
    sense := Sense.ge, rhs := -1 }

/-- `add_p_constraint`: the lower bound above for every exam `i` and every
ordered (positional) room pair, exactly as the three nested loops emit it. -/
def PrelimExamAssignment.add_p_constraint (s : SelfState) : List LinConstr :=
  s.exams.flatMap (fun e =>
    s.rooms.flatMap (fun r =>
      s.rooms.map (fun r2 => pLowerBound e.exam_id r.room_id r2.room_id)))

/-- `add_absolute_room_bound_constraint`: `z[i] <= R` for each exam. -/
def PrelimExamAssignment.add_absolute_room_bound_constraint (s : SelfState) : List LinConstr :=
  s.exams.map (fun e => { terms := [((1 : ℚ), Var.z e.exam_id)], sense := Sense.le, rhs := s.R })

/-- The exclusivity constraint for one room row:
`sum(x.select('*', r)) <= 1`. -/
def roomUseConstr (s : SelfState) (r : Room) : LinConstr :=
  { terms := s.exams.map (fun e => ((1 : ℚ), Var.x e.exam_id r.room_id)),
    sense := Sense.le, rhs := 1 }

/-- `add_room_use_constraint`: the exclusivity constraint for every room
`r` of `self.rooms`, the dummy row included. -/
def PrelimExamAssignment.add_room_use_constraint (s : SelfState) : List LinConstr :=
  s.rooms.map (roomUseConstr s)

/-- `sum(self.rooms["s"])`: the summed capacity of every room row,
dummy included. -/
def totalCapacity (s : SelfState) : ℚ :=
  (s.rooms.map Room.s).sum

/-- `add_enrollment_const`: for each exam `i` the code adds
`sum(self.rooms["s"]) * sum(self.x.select(exam_i,'*')) >= n[i]`, i.e. every
room's `x[i,r]` carries the one total-capacity coefficient. -/
def PrelimExamAssignment.add_enrollment_const (s : SelfState) : List LinConstr :=
  s.exams.map (fun e =>
    { terms := s.rooms.map (fun r => (totalCapacity s, Var.x e.exam_id r.room_id)),
      sense := Sense.ge, rhs := e.n })

/-- `add_constraints`: the five adders in call order. -/
def PrelimExamAssignment.add_constraints (s : SelfState) : List LinConstr :=
  PrelimExamAssignment.add_z_constraint s ++
  PrelimExamAssignment.add_p_constraint s ++
  PrelimExamAssignment.add_absolute_room_bound_constraint s ++
  PrelimExamAssignment.add_room_use_constraint s ++
  PrelimExamAssignment.add_enrollment_const s

/-- Run a fallible producer over a list, failing when any element fails
(a Python loop whose body can raise `KeyError`, with `none` as the raise). -/
def optionMapAll {α β : Type} (f : α → Option β) : List α → Option (List β)
  | [] => some []
  | a :: t =>
    match f a, optionMapAll f t with
    | some b, some bs => some (b :: bs)
    | _, _ => none

/-- The inner loops of the academic-org part of `set_objective` for one
column `room` of `acadorg_dist` with values `colvals`: for each value, for
each exam, `room_label_dict[room]` is looked up (a missing key is the
`KeyError`, modelled by `none`) and a term
`x[i,true_id] * dist_aca * w_ac` is emitted per room id of the label. -/
def acadColTerms (s : SelfState) (room : String) (colvals : List ℚ) :
    Option (List (ℚ × Var)) :=
  (optionMapAll (fun dist_aca =>
    (optionMapAll (fun (e : ExamN) =>
      match List.lookup room s.room_label_dict with
      | none => none
      | some ids => some (ids.map (fun tid => (dist_aca * s.w_ac, Var.x e.exam_id tid))))
      s.exams).map List.flatten) colvals).map List.flatten

/-- The `academic_org_dist` term list of `set_objective`: the loop over the
columns of `self.acadorg_dist` (the `dummy` column included). -/
def PrelimExamAssignment.academic_org_dist (s : SelfState) : Option (List (ℚ × Var)) :=
  (optionMapAll (fun c => acadColTerms s c.1 c.2) s.acadorg_dist.cols).map List.flatten

/-- The inner loops of the squared-distance part of `set_objective` for one
column `r` of `dist` with values `colvals`: for each value the label lookup
happens, then `(distance**2) * sum(p.select(r_true_id, '*'))` contributes a
`distance²` term for every `p[r_true_id, r2]`. -/
def distColTerms (s : SelfState) (r : String) (colvals : List ℚ) :
    Option (List (ℚ × Var)) :=
  (optionMapAll (fun distance =>
    match List.lookup r s.room_label_dict with
    | none => none
    | some ids => some (ids.flatMap (fun tid =>
        s.rooms.map (fun (r2 : Room) => (distance ^ 2, Var.p tid r2.room_id))))) colvals).map
    List.flatten

/-- The `squared_dist_constraint` term list of `set_objective`: the loop
over the columns of `self.dist` (dummy column and zero row included). -/
def PrelimExamAssignment.squared_dist_constraint (s : SelfState) : Option (List (ℚ × Var)) :=
  (optionMapAll (fun c => distColTerms s c.1 c.2) s.dist.cols).map List.flatten

/-- `set_objective`: `wr*quicksum(z) + sum(squared_dist_constraint) +
sum(academic_org_dist)`, as one term list; `none` when a label lookup
raised. -/
def PrelimExamAssignment.set_objective (s : SelfState) : Option (List (ℚ × Var)) :=
  match PrelimExamAssignment.academic_org_dist s,
      PrelimExamAssignment.squared_dist_constraint s with
  | some aot, some sdt =>
      some ((s.exams.map (fun e => (s.wr, Var.z e.exam_id))) ++ sdt ++ aot)
  | _, _ => none

/-- `build_model`: the constraint store and the objective of the model. -/
def PrelimExamAssignment.build_model (s : SelfState) :
    List LinConstr × Option (List (ℚ × Var)) :=
  (PrelimExamAssignment.add_constraints s, PrelimExamAssignment.set_objective s)

/-- `solve` after `model.optimize()`: the solver outcome is opaque, either
no solution (`none`, e.g. an infeasible model) or a value per variable.
The code keeps an `x` key exactly when `'value 1.0' in str(self.x[result])`;
a Gurobi binary variable's repr shows `(value 1.0)` precisely when a
solution exists and its value is 1, and shows no value part at all when
there is none, so the scan is `false` throughout in that case. -/
def PrelimExamAssignment.solve (s : SelfState) (outcome : Option (Var → ℚ)) :
    List (String × String) :=
  (index_x s).filter (fun pr =>
    match outcome with
    | none => false
    | some a => decide (a (Var.x pr.1 pr.2) = 1))

/-- The value of a term list under an assignment of the variables. -/
def lhsVal (a : Var → ℚ) (ts : List (ℚ × Var)) : ℚ :=
  (ts.map (fun t => t.1 * a t.2)).sum

/-- Whether an assignment satisfies a linear constraint. -/
def LinConstr.sat (a : Var → ℚ) (c : LinConstr) : Bool :=
  match c.sense with
  | Sense.le => decide (lhsVal a c.terms ≤ c.rhs)
  | Sense.ge => decide (c.rhs ≤ lhsVal a c.terms)
  | Sense.eq => decide (lhsVal a c.terms = c.rhs)

/-- The total coefficient of a variable in a term list. -/
def coeffOf : List (ℚ × Var) → Var → ℚ
  | [], _ => 0
  | t :: ts, v => (if t.2 = v then t.1 else 0) + coeffOf ts v

/-- Modelled from the spec: the enrollment-coverage constraint in per-room
weighted form, `Σ_r s[r]·x[i,r] ≥ n[i]`. -/
def spec_enrollment_constr (s : SelfState) (e : ExamN) : LinConstr :=
  { terms := s.rooms.map (fun r => (r.s, Var.x e.exam_id r.room_id)),
    sense := Sense.ge, rhs := e.n }

/-- Modelled from the spec: the academic-org proximity objective term
`w_ac · Σ_{i,r} dist(acadorg(i), building(r)) · x[i,r]`. -/
def spec_acad_terms (s : SelfState) : List (ℚ × Var) :=
  s.exams.flatMap (fun e =>
    s.rooms.map (fun r =>
      (s.w_ac * ((s.acadorg_dist.atCell e.acadorg r.building).getD 0),
        Var.x e.exam_id r.room_id)))

/-- Modelled from the spec: the room-cluster compactness objective term
`Σ_{r,r2} dist(building(r), building(r2))² · p[r,r2]`. -/
def spec_squared_terms (s : SelfState) : List (ℚ × Var) :=
  s.rooms.flatMap (fun r =>
    s.rooms.map (fun r2 =>
      (((s.dist.atCell r.building r2.building).getD 0) ^ 2,
        Var.p r.room_id r2.room_id)))

/-- A small concrete instance: two exams (one In Person with enrollment
100 and acadorg `a1`, one Online), two rooms of capacities 60 and 50 in
buildings `B1` and `B2`, and complete distance tables. -/
def exA : Inputs :=
  { room_label_dict := [("B1", ["r1"]), ("B2", ["r2"]), ("dummy", ["dummy"])],
    exams := [{ exam_id := "e1", enrollment := 100, modality := "In Person", acadorg := "a1" },
              { exam_id := "e2", enrollment := 30, modality := "Online", acadorg := "a2" }],
    exam_dates := [("2020-12-01", 0)],
    rooms := [{ room_id := "r1", building := "B1", room := "101", capacity := 60 },
              { room_id := "r2", building := "B2", room := "201", capacity := 50 }],
    acadorg_dist := { index := ["a1", "a2"], cols := [("B1", [1, 2]), ("B2", [4, 8])] },
    dist := { index := ["B1", "B2"], cols := [("B1", [0, 3]), ("B2", [3, 0])] },
    wr := 1, w_ac := 1/20, R := 10 }

/-- The `self` state the constructor builds from `exA`. -/
def sA : SelfState := (PrelimExamAssignment.init exA).self

/-- The instance `exA` with the `dummy` key missing from
`room_label_dict`. -/
def ex9 : Inputs :=
  { exA with room_label_dict := [("B1", ["r1"]), ("B2", ["r2"])] }

/-- An instance with one In-Person exam of enrollment 1 and no real room at
all, so that no 0-1 assignment can satisfy the enrollment constraint. -/
def exC : Inputs :=
  { room_label_dict := [("dummy", ["dummy"])],
    exams := [{ exam_id := "e1", enrollment := 1, modality := "In Person", acadorg := "a1" }],
    exam_dates := [],
    rooms := [],
    acadorg_dist := { index := ["a1"], cols := [] },
    dist := { index := [], cols := [] },
    wr := 1, w_ac := 1/20, R := 10 }

/-- The `self` state the constructor builds from `exC`. -/
def sC : SelfState := (PrelimExamAssignment.init exC).self

/-- The row of `sA.exams` for exam `e1`. -/
def examE1 : ExamN := { exam_id := "e1", n := 100, modality := "In Person", acadorg := "a1" }

/-- The row of `sA.rooms` for room `r1`. -/
def roomR1 : Room := { room_id := "r1", building := "B1", room := some "101", s := 60, b := 1 }

/-- The row of `sA.rooms` for room `r2`. -/
def roomR2 : Room := { room_id := "r2", building := "B2", room := some "201", s := 50, b := 1 }

/-- The second row of the caller's exam table of `exA`. -/
def exB2 : Exam := { exam_id := "e2", enrollment := 30, modality := "Online", acadorg := "a2" }

/-- The second row of `sA.exams`: the Online exam with `n` zeroed. -/
def exB2N : ExamN := { exam_id := "e2", n := 0, modality := "Online", acadorg := "a2" }

/-- The 0-1 point that assigns exam `e1` only room `r1` and nothing else. -/
def assignA : Var → ℚ := fun v => if v = Var.x "e1" "r1" then 1 else 0

/-- C8: after construction, every Online exam has `n = 0` and every other
exam keeps its original enrollment (and its identity and modality). -/
theorem c8_online_enrollment_zeroed (inp : Inputs) (i : ℕ) (e : Exam) (e2 : ExamN)
    (h1 : inp.exams[i]? = some e)
    (h2 : (PrelimExamAssignment.init inp).self.exams[i]? = some e2) :
    (e.modality = "Online" → e2.n = 0) ∧
    (e.modality ≠ "Online" → e2.n = e.enrollment) ∧
    e2.exam_id = e.exam_id ∧ e2.modality = e.modality := by
  have hmap : (PrelimExamAssignment.init inp).self.exams = inp.exams.map examSetup := rfl
  rw [hmap, List.getElem?_map, h1] at h2
  simp only [Option.map_some', Option.some.injEq] at h2
  subst h2
  refine ⟨?_, ?_, rfl, rfl⟩
  · intro h
    simp [examSetup, h]
  · intro h
    simp only [examSetup]
    rw [if_neg h]

/-- C8 witness: in `exA`, the Online exam `e2` (caller enrollment 30) ends
with `n = 0` while keeping its id and modality. -/
theorem c8_online_enrollment_zeroed_witness :
    (exB2.modality = "Online" → exB2N.n = 0) ∧
    (exB2.modality ≠ "Online" → exB2N.n = exB2.enrollment) ∧
    exB2N.exam_id = exB2.exam_id ∧ exB2N.modality = exB2.modality :=
  c8_online_enrollment_zeroed exA 1 exB2 exB2N (by decide) (by decide)

/-- C10 counterexample: on `exA` the caller's `dist` frame does not end up
with the all-zero row and column-name reindexing the claim ascribes to it:
it keeps its two rows, while the row-appended reindexed frame (which only
`self.dist` receives) has three. -/
theorem c10_caller_dist_not_row_appended :
    (PrelimExamAssignment.init exA).caller_dist ≠
      ((exA.dist.setCol "dummy" 0).appendZeroRow).setIndexToCols ∧
    (PrelimExamAssignment.init exA).caller_dist.index.length = 2 ∧
    (((exA.dist.setCol "dummy" 0).appendZeroRow).setIndexToCols).index.length = 3 :=
  ⟨by decide, by decide, by decide⟩

/-- C10 (amended): the constructor mutates the caller's `acadorg_dist` and
`dist` in place only by adding the zero `dummy` column to each (and
`self.acadorg_dist` stays that same object); the all-zero row and the
reindexing by column names land on a fresh copy bound to `self.dist`, not
on the caller's `dist`; the caller's `exams` and `rooms` are not mutated. -/
theorem c10_init_frame_effects (inp : Inputs) :
    (PrelimExamAssignment.init inp).caller_exams = inp.exams ∧
    (PrelimExamAssignment.init inp).caller_rooms = inp.rooms ∧
    (PrelimExamAssignment.init inp).caller_acadorg_dist = inp.acadorg_dist.setCol "dummy" 0 ∧
    (PrelimExamAssignment.init inp).self.acadorg_dist =
      (PrelimExamAssignment.init inp).caller_acadorg_dist ∧
    (PrelimExamAssignment.init inp).caller_dist = inp.dist.setCol "dummy" 0 ∧
    (PrelimExamAssignment.init inp).caller_dist.index = inp.dist.index ∧
    (PrelimExamAssignment.init inp).self.dist =
      ((inp.dist.setCol "dummy" 0).appendZeroRow).setIndexToCols := by
  refine ⟨rfl, rfl, rfl, rfl, rfl, ?_, rfl⟩
  show (inp.dist.setCol "dummy" 0).index = inp.dist.index
  unfold DFrame.setCol
  split <;> rfl

/-- C6 (amended): whenever the optimizer produces no solution (in
particular on an infeasible model), `solve` returns the empty list of
pairs; its only output channel is that list, so infeasibility is not
reported as a distinct named failure. -/
theorem c6_solve_none_empty (s : SelfState) :
    PrelimExamAssignment.solve s none = [] := by
  simp [PrelimExamAssignment.solve]

/-- C6 counterexample: `exC` (one In-Person exam of enrollment 1, no real
room) yields a model containing the constraint `0·x[e1,dummy] ≥ 1`, whose
left side is 0 at every point, so no assignment is feasible; yet `solve` on
the no-solution outcome returns `[]` — an empty assignment list, not a
named Infeasible failure. -/
theorem c6_infeasible_returns_empty :
    ({ terms := [((0 : ℚ), Var.x "e1" "dummy")], sense := Sense.ge, rhs := 1 } : LinConstr) ∈
      (PrelimExamAssignment.build_model sC).1 ∧
    (∀ a : Var → ℚ, lhsVal a [((0 : ℚ), Var.x "e1" "dummy")] = 0) ∧
    PrelimExamAssignment.solve sC none = [] := by
  refine ⟨?_, ?_, ?_⟩
  · norm_num [PrelimExamAssignment.build_model, PrelimExamAssignment.add_constraints,
      PrelimExamAssignment.add_z_constraint, PrelimExamAssignment.add_p_constraint,
      PrelimExamAssignment.add_absolute_room_bound_constraint,
      PrelimExamAssignment.add_room_use_constraint, PrelimExamAssignment.add_enrollment_const,
      roomUseConstr, totalCapacity, sC, PrelimExamAssignment.init, exC, examSetup, dummyRoom,
      pLowerBound]
    rfl
  · intro a
    simp [lhsVal]
  · simp [PrelimExamAssignment.solve]

/-- C7: with a solution in hand, `solve` returns exactly the index pairs
whose `x` variable is 1: a pair is in the output precisely when it is an
`x` key and its solved value equals 1. -/
theorem c7_solve_collects_exactly_value_one (s : SelfState) (a : Var → ℚ) (i r : String) :
    (i, r) ∈ PrelimExamAssignment.solve s (some a) ↔
      (i, r) ∈ index_x s ∧ a (Var.x i r) = 1 := by
  simp [PrelimExamAssignment.solve, List.mem_filter]

/-- The rows of `sA.exams`, computed once. -/
lemma sA_exams : sA.exams = [examE1, exB2N] := rfl

/-- The rows of `sA.rooms`, computed once. -/
lemma sA_rooms : sA.rooms = [roomR1, roomR2, dummyRoom 2] := rfl

/-- The stored room cap of `sA`. -/
lemma sA_R : sA.R = 10 := rfl

/-- `assignA` at the one variable it sets. -/
lemma assignA_e1r1 : assignA (Var.x "e1" "r1") = 1 := rfl

/-- `assignA` vanishes at `x[e1,r2]`. -/
lemma assignA_e1r2 : assignA (Var.x "e1" "r2") = 0 := rfl

/-- `assignA` vanishes at `x[e1,dummy]`. -/
lemma assignA_e1dummy : assignA (Var.x "e1" "dummy") = 0 := rfl

/-- C4: for every room row of `self.rooms` — the appended dummy row
included, as the second conjunct shows it is such a row — the model holds
the exclusivity constraint `Σ_i x[i,r] ≤ 1`. -/
theorem c4_room_use_uniform_including_dummy (inp : Inputs) (r : Room)
    (h : r ∈ (PrelimExamAssignment.init inp).self.rooms) :
    roomUseConstr (PrelimExamAssignment.init inp).self r ∈
      (PrelimExamAssignment.build_model (PrelimExamAssignment.init inp).self).1 ∧
    dummyRoom (PrelimExamAssignment.init inp).self.M ∈
      (PrelimExamAssignment.init inp).self.rooms := by
  constructor
  · have hm : roomUseConstr (PrelimExamAssignment.init inp).self r ∈
        PrelimExamAssignment.add_room_use_constraint (PrelimExamAssignment.init inp).self :=
      List.mem_map_of_mem _ h
    exact List.mem_append.mpr (Or.inl (List.mem_append.mpr (Or.inr hm)))
  · have hrooms : (PrelimExamAssignment.init inp).self.rooms =
        inp.rooms.map roomSetup ++ [dummyRoom (PrelimExamAssignment.init inp).self.M] := rfl
    rw [hrooms]
    exact List.mem_append_right _ (List.mem_singleton.mpr rfl)

/-- C4 witness: in the concrete model of `exA` the dummy room itself gets
the exclusivity constraint. -/
theorem c4_room_use_uniform_including_dummy_witness :
    roomUseConstr (PrelimExamAssignment.init exA).self (dummyRoom 2) ∈
      (PrelimExamAssignment.build_model (PrelimExamAssignment.init exA).self).1 ∧
    dummyRoom (PrelimExamAssignment.init exA).self.M ∈
      (PrelimExamAssignment.init exA).self.rooms :=
  c4_room_use_uniform_including_dummy exA (dummyRoom 2) (by decide)

/-- C5: for every exam and ordered room pair the model holds the
one-directional linearized-AND lower bound on `p`, and every constraint of
the model that mentions a `p` variable at all is one of these lower bounds,
so no upper bound on `p` exists anywhere. -/
theorem c5_p_lower_bound_only (s : SelfState) (e : ExamN) (r r2 : Room)
    (he : e ∈ s.exams) (hr : r ∈ s.rooms) (hr2 : r2 ∈ s.rooms) :
    pLowerBound e.exam_id r.room_id r2.room_id ∈ (PrelimExamAssignment.build_model s).1 ∧
    ∀ c ∈ (PrelimExamAssignment.build_model s).1,
      c.terms.any (fun t => t.2.isP) = true → c ∈ PrelimExamAssignment.add_p_constraint s := by
  constructor
  · have hm : pLowerBound e.exam_id r.room_id r2.room_id ∈
        PrelimExamAssignment.add_p_constraint s := by
      simp only [PrelimExamAssignment.add_p_constraint, List.mem_flatMap, List.mem_map]
      exact ⟨e, he, r, hr, r2, hr2, rfl⟩
    exact List.mem_append.mpr (Or.inl (List.mem_append.mpr (Or.inl
      (List.mem_append.mpr (Or.inl (List.mem_append.mpr (Or.inr hm)))))))
  · intro c hc hp
    rcases List.mem_append.mp hc with hc4 | hcE
    · rcases List.mem_append.mp hc4 with hc3 | hcU
      · rcases List.mem_append.mp hc3 with hc2 | hcB
        · rcases List.mem_append.mp hc2 with hcZ | hcP
          · exfalso
            obtain ⟨e1, _, rfl⟩ := List.mem_map.mp hcZ
            simp only [List.any_eq_true] at hp
            obtain ⟨t, ht, hpt⟩ := hp
            rcases List.mem_append.mp ht with h1 | h1
            · obtain ⟨r3, _, rfl⟩ := List.mem_map.mp h1
              simp [Var.isP] at hpt
            · rw [List.mem_singleton.mp h1] at hpt
              simp [Var.isP] at hpt
          · exact hcP
        · exfalso
          obtain ⟨e1, _, rfl⟩ := List.mem_map.mp hcB
          simp [Var.isP] at hp
      · exfalso
        obtain ⟨r1, _, rfl⟩ := List.mem_map.mp hcU
        simp only [List.any_eq_true] at hp
        obtain ⟨t, ht, hpt⟩ := hp
        obtain ⟨e1, _, rfl⟩ := List.mem_map.mp ht
        simp [Var.isP] at hpt
    · exfalso
      obtain ⟨e1, _, rfl⟩ := List.mem_map.mp hcE
      simp only [List.any_eq_true] at hp
      obtain ⟨t, ht, hpt⟩ := hp
      obtain ⟨r3, _, rfl⟩ := List.mem_map.mp ht
      simp [Var.isP] at hpt

/-- C5 witness: in the concrete model of `exA`, the lower bound for exam
`e1` and the pair `(r1, r2)` is present, and every `p`-mentioning
constraint is an `add_p_constraint` lower bound. -/
theorem c5_p_lower_bound_only_witness :
    pLowerBound examE1.exam_id roomR1.room_id roomR2.room_id ∈
      (PrelimExamAssignment.build_model sA).1 ∧
    ∀ c ∈ (PrelimExamAssignment.build_model sA).1,
      c.terms.any (fun t => t.2.isP) = true → c ∈ PrelimExamAssignment.add_p_constraint sA :=
  c5_p_lower_bound_only sA examE1 roomR1 roomR2 (by decide) (by decide) (by decide)

/-- C1: in the concrete model of `exA` the enrollment constraint of exam
`e1` weights every room variable by the one total capacity 110 (not by the
room's own capacity); the per-room weighted form from the spec is nowhere
in the model; and the point assigning `e1` only the 60-seat room `r1`
satisfies the constraint the code built while leaving the spec's coverage
inequality (60 ≥ 100) violated. -/
theorem c1_enrollment_uses_total_capacity :
    PrelimExamAssignment.add_enrollment_const sA =
      [{ terms := [((110 : ℚ), Var.x "e1" "r1"), ((110 : ℚ), Var.x "e1" "r2"),
            ((110 : ℚ), Var.x "e1" "dummy")], sense := Sense.ge, rhs := 100 },
        { terms := [((110 : ℚ), Var.x "e2" "r1"), ((110 : ℚ), Var.x "e2" "r2"),
            ((110 : ℚ), Var.x "e2" "dummy")], sense := Sense.ge, rhs := 0 }] ∧
    ({ terms := [((110 : ℚ), Var.x "e1" "r1"), ((110 : ℚ), Var.x "e1" "r2"),
        ((110 : ℚ), Var.x "e1" "dummy")], sense := Sense.ge, rhs := 100 } : LinConstr) ∈
      (PrelimExamAssignment.build_model sA).1 ∧
    spec_enrollment_constr sA examE1 ∉ (PrelimExamAssignment.build_model sA).1 ∧
    LinConstr.sat assignA { terms := [((110 : ℚ), Var.x "e1" "r1"), ((110 : ℚ), Var.x "e1" "r2"),
        ((110 : ℚ), Var.x "e1" "dummy")], sense := Sense.ge, rhs := 100 } = true ∧
    LinConstr.sat assignA (spec_enrollment_constr sA examE1) = false ∧
    lhsVal assignA (spec_enrollment_constr sA examE1).terms = 60 ∧
    (spec_enrollment_constr sA examE1).rhs = 100 := by
  refine ⟨?_, ?_, ?_, ?_, ?_, ?_, ?_⟩
  · norm_num [PrelimExamAssignment.add_enrollment_const, totalCapacity, sA_exams, sA_rooms,
      examE1, exB2N, roomR1, roomR2, dummyRoom]
  · norm_num [PrelimExamAssignment.build_model, PrelimExamAssignment.add_constraints,
      PrelimExamAssignment.add_enrollment_const, totalCapacity, sA_exams, sA_rooms,
      examE1, exB2N, roomR1, roomR2, dummyRoom]
  · norm_num [PrelimExamAssignment.build_model, PrelimExamAssignment.add_constraints,
      PrelimExamAssignment.add_z_constraint, PrelimExamAssignment.add_p_constraint,
      PrelimExamAssignment.add_absolute_room_bound_constraint,
      PrelimExamAssignment.add_room_use_constraint, PrelimExamAssignment.add_enrollment_const,
      roomUseConstr, totalCapacity, spec_enrollment_constr, pLowerBound, sA_exams, sA_rooms,
      sA_R, examE1, exB2N, roomR1, roomR2, dummyRoom]
  · norm_num [LinConstr.sat, lhsVal, assignA_e1r1, assignA_e1r2, assignA_e1dummy]
  · norm_num [LinConstr.sat, lhsVal, spec_enrollment_constr, sA_exams, sA_rooms,
      examE1, roomR1, roomR2, dummyRoom, assignA_e1r1, assignA_e1r2, assignA_e1dummy]
  · norm_num [lhsVal, spec_enrollment_constr, sA_exams, sA_rooms,
      examE1, roomR1, roomR2, dummyRoom, assignA_e1r1, assignA_e1r2, assignA_e1dummy]
  · norm_num [spec_enrollment_constr, examE1]

/-- The objective list `set_objective` builds for `sA`, term by term: the
two `wr·z` terms, then the squared-distance block (three `dist` columns ×
three column values × the rooms of `p.select(tid,'*')`), then the
academic-org block (three `acadorg_dist` columns × two acadorg rows × two
exams × one labelled room). -/
lemma sA_objective_eval : PrelimExamAssignment.set_objective sA = some
    [((1 : ℚ), Var.z "e1"), ((1 : ℚ), Var.z "e2"),
      ((0 : ℚ) ^ 2, Var.p "r1" "r1"), ((0 : ℚ) ^ 2, Var.p "r1" "r2"),
      ((0 : ℚ) ^ 2, Var.p "r1" "dummy"),
      ((3 : ℚ) ^ 2, Var.p "r1" "r1"), ((3 : ℚ) ^ 2, Var.p "r1" "r2"),
      ((3 : ℚ) ^ 2, Var.p "r1" "dummy"),
      ((0 : ℚ) ^ 2, Var.p "r1" "r1"), ((0 : ℚ) ^ 2, Var.p "r1" "r2"),
      ((0 : ℚ) ^ 2, Var.p "r1" "dummy"),
      ((3 : ℚ) ^ 2, Var.p "r2" "r1"), ((3 : ℚ) ^ 2, Var.p "r2" "r2"),
      ((3 : ℚ) ^ 2, Var.p "r2" "dummy"),
      ((0 : ℚ) ^ 2, Var.p "r2" "r1"), ((0 : ℚ) ^ 2, Var.p "r2" "r2"),
      ((0 : ℚ) ^ 2, Var.p "r2" "dummy"),
      ((0 : ℚ) ^ 2, Var.p "r2" "r1"), ((0 : ℚ) ^ 2, Var.p "r2" "r2"),
      ((0 : ℚ) ^ 2, Var.p "r2" "dummy"),
      ((0 : ℚ) ^ 2, Var.p "dummy" "r1"), ((0 : ℚ) ^ 2, Var.p "dummy" "r2"),
      ((0 : ℚ) ^ 2, Var.p "dummy" "dummy"),
      ((0 : ℚ) ^ 2, Var.p "dummy" "r1"), ((0 : ℚ) ^ 2, Var.p "dummy" "r2"),
      ((0 : ℚ) ^ 2, Var.p "dummy" "dummy"),
      ((0 : ℚ) ^ 2, Var.p "dummy" "r1"), ((0 : ℚ) ^ 2, Var.p "dummy" "r2"),
      ((0 : ℚ) ^ 2, Var.p "dummy" "dummy"),
      ((1 : ℚ) * (1/20), Var.x "e1" "r1"), ((1 : ℚ) * (1/20), Var.x "e2" "r1"),
      ((2 : ℚ) * (1/20), Var.x "e1" "r1"), ((2 : ℚ) * (1/20), Var.x "e2" "r1"),
      ((4 : ℚ) * (1/20), Var.x "e1" "r2"), ((4 : ℚ) * (1/20), Var.x "e2" "r2"),
      ((8 : ℚ) * (1/20), Var.x "e1" "r2"), ((8 : ℚ) * (1/20), Var.x "e2" "r2"),
      ((0 : ℚ) * (1/20), Var.x "e1" "dummy"), ((0 : ℚ) * (1/20), Var.x "e2" "dummy"),
      ((0 : ℚ) * (1/20), Var.x "e1" "dummy"), ((0 : ℚ) * (1/20), Var.x "e2" "dummy")] := rfl

/-- The spec-modelled academic-org term list on `sA`, cell by cell. -/
lemma sA_spec_acad_eval : spec_acad_terms sA =
    [((1/20 : ℚ) * 1, Var.x "e1" "r1"), ((1/20 : ℚ) * 4, Var.x "e1" "r2"),
      ((1/20 : ℚ) * 0, Var.x "e1" "dummy"),
      ((1/20 : ℚ) * 2, Var.x "e2" "r1"), ((1/20 : ℚ) * 8, Var.x "e2" "r2"),
      ((1/20 : ℚ) * 0, Var.x "e2" "dummy")] := rfl

/-- The spec-modelled compactness term list on `sA`, pair by pair. -/
lemma sA_spec_squared_eval : spec_squared_terms sA =
    [((0 : ℚ) ^ 2, Var.p "r1" "r1"), ((3 : ℚ) ^ 2, Var.p "r1" "r2"),
      ((0 : ℚ) ^ 2, Var.p "r1" "dummy"),
      ((3 : ℚ) ^ 2, Var.p "r2" "r1"), ((0 : ℚ) ^ 2, Var.p "r2" "r2"),
      ((0 : ℚ) ^ 2, Var.p "r2" "dummy"),
      ((0 : ℚ) ^ 2, Var.p "dummy" "r1"), ((0 : ℚ) ^ 2, Var.p "dummy" "r2"),
      ((0 : ℚ) ^ 2, Var.p "dummy" "dummy")] := rfl

/-- C2: in the objective built for `exA`, the coefficient of `x[e1,r1]` is
`w_ac·(dist(a1,B1) + dist(a2,B1)) = 3/20` — the column loop sums the
distances of all acadorg rows, never consulting the exam's own acadorg —
whereas the spec's term `w_ac·dist(acadorg(e1), building(r1))` is `1/20`. -/
theorem c2_acadorg_coefficient_sums_all_orgs :
    (PrelimExamAssignment.set_objective sA).isSome = true ∧
    coeffOf ((PrelimExamAssignment.set_objective sA).getD []) (Var.x "e1" "r1") = 3/20 ∧
    coeffOf (spec_acad_terms sA) (Var.x "e1" "r1") = 1/20 ∧
    ¬ ((3 : ℚ)/20 = 1/20) := by
  refine ⟨by decide, ?_, ?_, by norm_num⟩
  · rw [sA_objective_eval]
    simp [coeffOf]
    norm_num
  · rw [sA_spec_acad_eval]
    simp [coeffOf]

/-- C3: in the objective built for `exA`, `p[r1,r1]` and `p[r1,dummy]`
both carry coefficient `Σ_B dist(B,B1)² = 9`, i.e. the weight depends only
on the first room's building column and not on the second room of the
pair, whereas the spec's pairwise weights `dist(B1,B1)²` and
`dist(B1,dummy)²` are both `0`. -/
theorem c3_compactness_weight_ignores_second_room :
    (PrelimExamAssignment.set_objective sA).isSome = true ∧
    coeffOf ((PrelimExamAssignment.set_objective sA).getD []) (Var.p "r1" "r1") = 9 ∧
    coeffOf ((PrelimExamAssignment.set_objective sA).getD []) (Var.p "r1" "dummy") = 9 ∧
    coeffOf (spec_squared_terms sA) (Var.p "r1" "r1") = 0 ∧
    coeffOf (spec_squared_terms sA) (Var.p "r1" "dummy") = 0 ∧
    ¬ ((9 : ℚ) = 0) := by
  refine ⟨by decide, ?_, ?_, ?_, ?_, by norm_num⟩
  · rw [sA_objective_eval]
    simp [coeffOf]
    norm_num
  · rw [sA_objective_eval]
    simp [coeffOf]
    norm_num
  · rw [sA_spec_squared_eval]
    simp [coeffOf]
  · rw [sA_spec_squared_eval]
    simp [coeffOf]

/-- `Option.map` keeps definedness. -/
lemma isSome_map {α β : Type} (f : α → β) (o : Option α) : (o.map f).isSome = o.isSome := by
  cases o <;> rfl

/-- `optionMapAll` succeeds when every element does. -/
lemma optionMapAll_isSome {α β : Type} (f : α → Option β) :
    ∀ l : List α, (∀ a ∈ l, (f a).isSome = true) → (optionMapAll f l).isSome = true := by
  intro l
  induction l with
  | nil => intro _; rfl
  | cons a t ih =>
    intro h
    obtain ⟨b, hb⟩ := Option.isSome_iff_exists.mp (h a (List.mem_cons_self a t))
    obtain ⟨bs, hbs⟩ :=
      Option.isSome_iff_exists.mp (ih (fun x hx => h x (List.mem_cons_of_mem a hx)))
    simp [optionMapAll, hb, hbs]

/-- The academic-org loop over one column cannot raise when the column key
is in `room_label_dict`. -/
lemma acadColTerms_isSome (s : SelfState) (room : String) (vals : List ℚ)
    (h : (List.lookup room s.room_label_dict).isSome = true) :
    (acadColTerms s room vals).isSome = true := by
  obtain ⟨ids, hids⟩ := Option.isSome_iff_exists.mp h
  rw [acadColTerms, isSome_map]
  apply optionMapAll_isSome
  intro v _
  rw [isSome_map]
  apply optionMapAll_isSome
  intro e _
  simp [hids]

/-- The squared-distance loop over one column cannot raise when the column
key is in `room_label_dict`. -/
lemma distColTerms_isSome (s : SelfState) (r : String) (vals : List ℚ)
    (h : (List.lookup r s.room_label_dict).isSome = true) :
    (distColTerms s r vals).isSome = true := by
  obtain ⟨ids, hids⟩ := Option.isSome_iff_exists.mp h
  rw [distColTerms, isSome_map]
  apply optionMapAll_isSome
  intro v _
  simp [hids]

/-- C9: `set_objective` consults `room_label_dict` at the column keys of
both distance tables (the constructor-added `dummy` column included); when
every such key is present the failure branch is unreachable and the
objective is built, as on `sA`; on `ex9`, whose dictionary lacks the
`dummy` key even though `dummy` is a column of both tables, `set_objective`
fails with the unhandled lookup failure (`none`), not with a descriptive
validation outcome. -/
theorem c9_set_objective_lookup :
    (∀ s : SelfState,
      (∀ k ∈ s.acadorg_dist.cols.map Prod.fst ++ s.dist.cols.map Prod.fst,
        (List.lookup k s.room_label_dict).isSome = true) →
      (PrelimExamAssignment.set_objective s).isSome = true) ∧
    (PrelimExamAssignment.set_objective sA).isSome = true ∧
    PrelimExamAssignment.set_objective (PrelimExamAssignment.init ex9).self = none ∧
    List.lookup "dummy" (PrelimExamAssignment.init ex9).self.room_label_dict = none ∧
    "dummy" ∈ (PrelimExamAssignment.init ex9).self.acadorg_dist.cols.map Prod.fst ∧
    "dummy" ∈ (PrelimExamAssignment.init ex9).self.dist.cols.map Prod.fst := by
  refine ⟨?_, by decide, by decide, by decide, by decide, by decide⟩
  intro s h
  have ha : (PrelimExamAssignment.academic_org_dist s).isSome = true := by
    rw [PrelimExamAssignment.academic_org_dist, isSome_map]
    apply optionMapAll_isSome
    intro c hc
    exact acadColTerms_isSome s c.1 c.2
      (h c.1 (List.mem_append_left _ (List.mem_map_of_mem _ hc)))
  have hb : (PrelimExamAssignment.squared_dist_constraint s).isSome = true := by
    rw [PrelimExamAssignment.squared_dist_constraint, isSome_map]
    apply optionMapAll_isSome
    intro c hc
    exact distColTerms_isSome s c.1 c.2
      (h c.1 (List.mem_append_right _ (List.mem_map_of_mem _ hc)))
  obtain ⟨aot, haot⟩ := Option.isSome_iff_exists.mp ha
  obtain ⟨sdt, hsdt⟩ := Option.isSome_iff_exists.mp hb
  simp [PrelimExamAssignment.set_objective, haot, hsdt]

end AssignRooms

